import Mathlib

/-!
Shallow embedding of the numeric core of `Sim_Investimentos_VersãoWeb.py`:
the regressive income-tax calculator (`calcular_ir_regressivo`, lines 75-92),
the monthly investment-growth simulator (`simular_investimento_detalhado`,
lines 94-166), and the two loan-amortization schedule generators
(`calcular_sac`, lines 168-219, and `calcular_price`, lines 221-274).

Python float arithmetic is idealized as exact rational arithmetic (`ℚ`);
every float literal appearing in the source is an exact rational, and the
core's operations are `+ - * /`, integer powers and comparisons, all of
which stay in `ℚ`.  The single genuinely irrational operation, the
annual-to-monthly effective-rate seeding `(1+a)**(1/12) - 1` on line 115,
is modelled separately over `ℝ` by `taxa_mensal_de_anual`; the monthly loop
is parametrized by the seeded monthly rate so that it stays executable.

Pandas behaviour that the source relies on is modelled explicitly:
`DataFrame(list-of-dicts)` is the list of row records, `df['col'].sum()` is
the sum of that column over the rows, and `df.loc[label, col]` on the
default integer index succeeds exactly when `0 ≤ label < len(rows)` and
raises `KeyError` otherwise (modelled by `Option`/`Except`).
-/

/-- Annual→monthly effective-rate conversion, line 115 of the source:
`taxa_mensal = (1 + taxa_anual_base) ** (1/12) - 1`, idealized over `ℝ`
(real exponentiation). -/
noncomputable def taxa_mensal_de_anual (taxa_anual_base : ℝ) : ℝ :=
  (1 + taxa_anual_base) ^ ((1 : ℝ) / 12) - 1

/-- `calcular_ir_regressivo(meses, rendimento)`, lines 75-92: regressive
income-tax table selected by holding period, applied to the yield. -/
def calcular_ir_regressivo (meses : ℤ) (rendimento : ℚ) : ℚ :=
  let aliquota : ℚ :=
    if meses ≤ 6 then 0.225
    else if meses ≤ 12 then 0.20
    else if meses ≤ 24 then 0.175
    else 0.15
  rendimento * aliquota

/-- One row of the amortization tables built by `calcular_sac` and
`calcular_price` (the dicts appended to `tabela`). -/
structure RegistroAmortizacao where
  mes : ℕ
  juros : ℚ
  amortizacao : ℚ
  parcela : ℚ
  saldoDevedor : ℚ
deriving DecidableEq, Repr

/-- The `for mes in range(1, meses+1)` loop of `calcular_sac`, lines
176-217, as a recursion on the number of remaining months.  `mes` is the
current month number and `saldo` the running `saldo_devedor`; the returned
totals `juros_total` / `parcela_total` are accumulated additively on the
way out, which agrees with the source's in-place `+=` accumulation. -/
def sacLoop (taxa_mensal amortizacao_fixa amort_extra_valor : ℚ)
    (meses_extra_amort : List ℕ) : ℕ → ℕ → ℚ → List RegistroAmortizacao × ℚ × ℚ
  | 0, _, _ => ([], 0, 0)
  | k + 1, mes, saldo =>
    if saldo ≤ 0 then
      -- lines 177-186: the debt is already paid, all columns are zero
      let r := sacLoop taxa_mensal amortizacao_fixa amort_extra_valor meses_extra_amort
        k (mes + 1) saldo
      (⟨mes, 0, 0, 0, 0⟩ :: r.1, r.2.1, r.2.2)
    else
      let juros := saldo * taxa_mensal
      let amortizacao_mes0 := amortizacao_fixa +
        (if mes ∈ meses_extra_amort then amort_extra_valor else 0)
      let parcela0 := amortizacao_mes0 + juros
      let saldo_devedor_anterior := saldo
      let saldo0 := saldo - amortizacao_mes0
      -- lines 202-206: clamp when the tentative balance would go negative;
      -- the source reassigns `amortizacao_mes`, `saldo_devedor`, `parcela`
      let amortizacao_mes :=
        if saldo0 < 0 then
          (saldo_devedor_anterior -
            (if mes ∈ meses_extra_amort then amort_extra_valor else 0)) + juros
        else amortizacao_mes0
      let saldo2 := if saldo0 < 0 then 0 else saldo0
      let parcela := if saldo0 < 0 then amortizacao_mes + juros else parcela0
      let r := sacLoop taxa_mensal amortizacao_fixa amort_extra_valor meses_extra_amort
        k (mes + 1) saldo2
      (⟨mes, juros, amortizacao_mes, parcela, saldo2⟩ :: r.1,
        juros + r.2.1, parcela + r.2.2)

/-- `calcular_sac(principal, taxa_mensal, meses, amort_extra_valor,
meses_extra_amort)`, lines 168-219: SAC amortization table with
extraordinary prepayments; returns `(tabela, juros_total, parcela_total)`. -/
def calcular_sac (principal taxa_mensal : ℚ) (meses : ℕ)
    (amort_extra_valor : ℚ) (meses_extra_amort : List ℕ) :
    List RegistroAmortizacao × ℚ × ℚ :=
  let amortizacao_fixa := principal / meses
  sacLoop taxa_mensal amortizacao_fixa amort_extra_valor meses_extra_amort
    meses 1 principal

/-- The constant payment of the Price method, lines 229-232 of the source:
`parcela_fixa = principal * ((1+t)**meses * t) / ((1+t)**meses - 1)`, with
the `ZeroDivisionError` handler modelled by the zero-denominator branch
(`parcela_fixa = 0`). -/
def parcelaFixaPrice (principal taxa_mensal : ℚ) (meses : ℕ) : ℚ :=
  if (1 + taxa_mensal) ^ meses - 1 = 0 then 0
  else principal * ((1 + taxa_mensal) ^ meses * taxa_mensal) /
    ((1 + taxa_mensal) ^ meses - 1)

/-- The `for mes in range(1, meses+1)` loop of `calcular_price`, lines
234-272, as a recursion on the number of remaining months; same
accumulation convention as `sacLoop`. -/
def priceLoop (taxa_mensal parcela_fixa amort_extra_valor : ℚ)
    (meses_extra_amort : List ℕ) : ℕ → ℕ → ℚ → List RegistroAmortizacao × ℚ × ℚ
  | 0, _, _ => ([], 0, 0)
  | k + 1, mes, saldo =>
    if saldo ≤ 0 then
      -- lines 235-244: the debt is already paid, all columns are zero
      let r := priceLoop taxa_mensal parcela_fixa amort_extra_valor meses_extra_amort
        k (mes + 1) saldo
      (⟨mes, 0, 0, 0, 0⟩ :: r.1, r.2.1, r.2.2)
    else
      let juros := saldo * taxa_mensal
      let amortizacao0 := parcela_fixa - juros
      let saldo_devedor_anterior := saldo
      -- lines 252-253: the extraordinary prepayment hits the balance first
      let saldo1 := if mes ∈ meses_extra_amort then saldo - amort_extra_valor else saldo
      let saldo2 := saldo1 - amortizacao0
      -- lines 258-261: clamp when the tentative balance would go negative
      let amortizacao :=
        if saldo2 < 0 then
          (saldo_devedor_anterior -
            (if mes ∈ meses_extra_amort then amort_extra_valor else 0)) + juros
        else amortizacao0
      let saldo3 := if saldo2 < 0 then 0 else saldo2
      let r := priceLoop taxa_mensal parcela_fixa amort_extra_valor meses_extra_amort
        k (mes + 1) saldo3
      (⟨mes, juros, amortizacao, parcela_fixa, saldo3⟩ :: r.1,
        juros + r.2.1,
        (parcela_fixa + (if mes ∈ meses_extra_amort then amort_extra_valor else 0)) + r.2.2)

/-- `calcular_price(principal, taxa_mensal, meses, amort_extra_valor,
meses_extra_amort)`, lines 221-274: Price (French) amortization table with
extraordinary prepayments; returns `(tabela, juros_total, parcela_total)`. -/
def calcular_price (principal taxa_mensal : ℚ) (meses : ℕ)
    (amort_extra_valor : ℚ) (meses_extra_amort : List ℕ) :
    List RegistroAmortizacao × ℚ × ℚ :=
  priceLoop taxa_mensal (parcelaFixaPrice principal taxa_mensal meses)
    amort_extra_valor meses_extra_amort meses 1 principal

/-- Derived observer on `calcular_price`: replays the loop of lines 234-272
with the same balance evolution and records which month numbers take the
active (`saldo_devedor > 0`) branch, i.e. which rows are not zero-filled.
Used to state which rows of the table are genuine schedule rows. -/
def mesesAtivosPrice (taxa_mensal parcela_fixa amort_extra_valor : ℚ)
    (meses_extra_amort : List ℕ) : ℕ → ℕ → ℚ → List ℕ
  | 0, _, _ => []
  | k + 1, mes, saldo =>
    if saldo ≤ 0 then
      mesesAtivosPrice taxa_mensal parcela_fixa amort_extra_valor meses_extra_amort
        k (mes + 1) saldo
    else
      let juros := saldo * taxa_mensal
      let amortizacao0 := parcela_fixa - juros
      let saldo1 := if mes ∈ meses_extra_amort then saldo - amort_extra_valor else saldo
      let saldo2 := saldo1 - amortizacao0
      let saldo3 := if saldo2 < 0 then 0 else saldo2
      mes :: mesesAtivosPrice taxa_mensal parcela_fixa amort_extra_valor meses_extra_amort
        k (mes + 1) saldo3

/-- One row of the monthly ledger built by `simular_investimento_detalhado`
(the dicts appended to `dados_mensais`, lines 142-148). -/
structure RegistroMensal where
  mes : ℕ
  aporte : ℚ
  juros : ℚ
  saldoBruto : ℚ
  capitalAcumulado : ℚ
deriving DecidableEq, Repr

/-- The contribution selection of lines 118-129: the four recognized policy
tags choose a formula, any other tag falls through to the fixed
contribution.  `aportes_customizados` models the Python dict through its
`get(mes, 0)` view (lookup with default `0`). -/
def aporte_do_mes (tipo_aporte : String) (aporte_mensal_base variacao_aporte : ℚ)
    (aportes_customizados : ℕ → ℚ) (mes : ℕ) : ℚ :=
  if tipo_aporte = "Fixo" then aporte_mensal_base
  else if tipo_aporte = "Variação Linear" then
    aporte_mensal_base + ((mes : ℚ) - 1) * variacao_aporte
  else if tipo_aporte = "Variação Percentual" then
    aporte_mensal_base * (1 + variacao_aporte) ^ ((mes - 1) / 12)
  else if tipo_aporte = "Aportes Customizados" then
    aporte_mensal_base + aportes_customizados mes
  else aporte_mensal_base

/-- The `for mes in range(1, meses+1)` loop of
`simular_investimento_detalhado`, lines 117-148, as a recursion on the
number of remaining months; returns the ledger `dados_mensais`.  `saldo`,
`capital` and `taxa` are the running balance, accumulated capital and
current monthly rate. -/
def dadosMensais (tipo_aporte : String) (aporte_mensal_base variacao_aporte : ℚ)
    (aportes_customizados : ℕ → ℚ) (variacao_taxa_mensal : ℚ) :
    ℕ → ℕ → ℚ → ℚ → ℚ → List RegistroMensal
  | 0, _, _, _, _ => []
  | k + 1, mes, saldo, capital, taxa =>
    let aporte := aporte_do_mes tipo_aporte aporte_mensal_base variacao_aporte
      aportes_customizados mes
    let juros := saldo * taxa
    let saldo2 := saldo + juros + aporte
    let capital2 := capital + aporte
    let taxa2 := taxa * (1 + variacao_taxa_mensal)
    ⟨mes, aporte, juros, saldo2, capital2⟩ ::
      dadosMensais tipo_aporte aporte_mensal_base variacao_aporte
        aportes_customizados variacao_taxa_mensal k (mes + 1) saldo2 capital2 taxa2

/-- Failure modes of `simular_investimento_detalhado`.  The source itself
contains no validation; `keyError` models the pandas `KeyError` raised by
`df.loc[label, col]` when the label is outside the row index.
`validationError` exists to state the specified validation behaviour. -/
inductive ErroSimulacao where
  | validationError
  | keyError
deriving DecidableEq, Repr

/-- The tuple returned on line 166 of the source:
`(saldo_bruto, ir_pago, saldo_liquido, df_detalhado, capital_investido)`. -/
structure ResultadoSimulacao where
  saldo_bruto : ℚ
  ir_pago : ℚ
  saldo_liquido : ℚ
  df_detalhado : List RegistroMensal
  capital_investido : ℚ
deriving DecidableEq, Repr

/-- `df.loc[rotulo, 'Saldo Bruto (R$)']` on the default integer row index
(line 154): succeeds exactly when `0 ≤ rotulo < len(rows)`, otherwise the
lookup raises `KeyError` (modelled by `none`). -/
def locSaldoBruto (dados : List RegistroMensal) (rotulo : ℤ) : Option ℚ :=
  if 0 ≤ rotulo then (dados[rotulo.toNat]?).map (·.saldoBruto) else none

/-- `simular_investimento_detalhado(...)`, lines 94-166.  The monthly loop
is `dadosMensais`; `taxa_mensal` is the monthly rate seeded on line 115
from the annual base rate by `taxa_mensal_de_anual` (the loop is
parametrized by the seeded rate to keep it executable).  `meses` is a
Python `int`, so it may be non-positive, in which case the loop body never
runs and the `df.loc[meses-1, ...]` read on line 154 fails. -/
def simular_investimento_detalhado (valor_inicial : ℚ) (tipo_aporte : String)
    (aporte_mensal_base variacao_aporte : ℚ) (aportes_customizados : ℕ → ℚ)
    (taxa_mensal variacao_taxa_mensal : ℚ) (meses : ℤ) (incide_ir : Bool) :
    Except ErroSimulacao ResultadoSimulacao :=
  let dados := dadosMensais tipo_aporte aporte_mensal_base variacao_aporte
    aportes_customizados variacao_taxa_mensal meses.toNat 1 valor_inicial
    valor_inicial taxa_mensal
  match locSaldoBruto dados (meses - 1) with
  | none => .error .keyError
  | some saldo_bruto =>
    let capital_investido := valor_inicial + (dados.map (·.aporte)).sum
    let rendimento_bruto := saldo_bruto - capital_investido
    let ir_pago := if incide_ir then calcular_ir_regressivo meses rendimento_bruto else 0
    let saldo_liquido := saldo_bruto - ir_pago
    .ok ⟨saldo_bruto, ir_pago, saldo_liquido, dados, capital_investido⟩

/-- Projection used to state results about the gross balance of a
simulation run: the `saldo_bruto` component when the run succeeds. -/
def saldoBrutoDe (e : Except ErroSimulacao ResultadoSimulacao) : Option ℚ :=
  match e with
  | .ok r => some r.saldo_bruto
  | .error _ => none

/-- Claim C6: the regressive tax table is exact at the bracket boundaries: for
every yield `Y`, `computeTax(6, Y) = 0.225*Y`, `computeTax(7, Y) = 0.20*Y`,
`computeTax(12, Y) = 0.20*Y`, `computeTax(13, Y) = 0.175*Y`,
`computeTax(24, Y) = 0.175*Y`, `computeTax(25, Y) = 0.15*Y`. -/
theorem tax_brackets_exact_at_boundaries (Y : ℚ) :
    calcular_ir_regressivo 6 Y = 0.225 * Y ∧
    calcular_ir_regressivo 7 Y = 0.20 * Y ∧
    calcular_ir_regressivo 12 Y = 0.20 * Y ∧
    calcular_ir_regressivo 13 Y = 0.175 * Y ∧
    calcular_ir_regressivo 24 Y = 0.175 * Y ∧
    calcular_ir_regressivo 25 Y = 0.15 * Y := by
  norm_num [calcular_ir_regressivo, mul_comm]

/-- Claim C1: evaluation of the SAC schedule at an input whose first month
triggers the balance clamp (`principal = 100`, `monthlyRate = 1/8`,
`termMonths = 2`, extra prepayment `60` in month 1; every intermediate
value is exactly representable in binary floating point, so the Python
run produces these very numbers).  The previous balance is `100` and the
extra applied is `60`, so the claimed clamp rule would record
`amortization = 100 - 60 = 40`; the code records `105/2 = 52.5`, because
line 204 (`amortizacao_mes += juros`) also adds the month's interest
`12.5` into the amortization column. -/
theorem sac_clamp_month_adds_interest_into_amortization :
    calcular_sac 100 (1/8) 2 60 [1] =
      ([⟨1, 25/2, 105/2, 65, 0⟩, ⟨2, 0, 0, 0, 0⟩], 25/2, 65) ∧
    (105/2 : ℚ) ≠ 100 - 60 := by
  norm_num [calcular_sac, sacLoop]

/-- Claim C4: evaluation of the SAC schedule at an input with an extra
prepayment that triggers the clamp (`principal = 120`, `monthlyRate =
1/8`, `termMonths = 3`, extra prepayment `90` in month 1; all
intermediate values are exact in binary floating point): the recorded
amortization column sums to `45`, not to the principal `120` (nor to
`120` after counting the clamp-month extra once more: `45 + 90 = 135`),
far outside the `1e-6` tolerance.  The clamp of lines 202-206 drops the
extra prepayment from, and adds the month's interest into, the recorded
amortization. -/
theorem sac_amortization_sum_misses_principal :
    (((calcular_sac 120 (1/8) 3 90 [1]).1.map (·.amortizacao)).sum = 45) ∧
    ¬ |(((calcular_sac 120 (1/8) 3 90 [1]).1.map (·.amortizacao)).sum) - 120|
        ≤ 1 / 1000000 := by
  norm_num [calcular_sac, sacLoop, abs]

/-- Claim C2, counterexample: at `horizonMonths = 0` (with arbitrary other
parameters) the simulator does not fail with a validation error; it fails
with the `KeyError` of the `df.loc[meses-1, ...]` read on line 154. -/
theorem simular_zero_horizon_fails_with_keyerror_not_validation :
    simular_investimento_detalhado 100 "Fixo" 10 0 (fun _ => 0) 0 0 0 false =
      .error .keyError ∧
    (Except.error ErroSimulacao.keyError :
        Except ErroSimulacao ResultadoSimulacao) ≠ .error .validationError := by
  constructor
  · norm_num [simular_investimento_detalhado, dadosMensais, locSaldoBruto]
  · simp

/-- Claim C2, amended: for every parameter set with `horizonMonths ≤ 0` the
simulator fails — but with a `KeyError` raised by the result-row lookup
`df.loc[meses-1, ...]` after the (empty) monthly loop, not with a
`ValidationError` surfaced before computation; no validation is performed. -/
theorem simular_nonpositive_horizon_fails_with_keyerror
    (vi : ℚ) (tipo : String) (b v : ℚ) (cust : ℕ → ℚ) (t vt : ℚ) (meses : ℤ)
    (ir : Bool) (h : meses ≤ 0) :
    simular_investimento_detalhado vi tipo b v cust t vt meses ir =
      .error .keyError := by
  have h0 : meses.toNat = 0 := Int.toNat_of_nonpos h
  simp only [simular_investimento_detalhado, h0, dadosMensais]
  simp [locSaldoBruto]

/-- Witness for the amended C2, at `horizonMonths = -3`. -/
theorem simular_nonpositive_horizon_fails_with_keyerror_witness :
    ((-3 : ℤ) ≤ 0) ∧
    simular_investimento_detalhado 5 "Fixo" 1 2 (fun _ => 3) (1/2) (1/3) (-3) true =
      .error .keyError :=
  ⟨by decide,
    simular_nonpositive_horizon_fails_with_keyerror 5 "Fixo" 1 2 (fun _ => 3)
      (1/2) (1/3) (-3) true (by decide)⟩

/-- Claim C3, counterexample: a taxable run with negative yield has
`netBalance > grossBalance`.  Monthly rate `-1/2` (the seeding of an
annual rate of `(1/2)^12 - 1`, as the first conjunct shows), initial
amount `100`, no contributions, one month, taxable: the gross balance is
`50`, the yield is `-50`, the "tax" is `-45/4`, and the net balance
`245/4 = 61.25` exceeds the gross balance `50`. -/
theorem simular_taxed_negative_yield_net_above_gross :
    taxa_mensal_de_anual ((1/2 : ℝ)^(12:ℕ) - 1) = -(1/2) ∧
    simular_investimento_detalhado 100 "Fixo" 0 0 (fun _ => 0) (-(1/2)) 0 1 true =
      .ok ⟨50, -(45/4), 245/4, [⟨1, 0, -50, 50, 100⟩], 100⟩ ∧
    ¬ ((245 : ℚ)/4 ≤ 50) := by
  refine ⟨?_, ?_, by norm_num⟩
  · unfold taxa_mensal_de_anual
    rw [show (1 : ℝ) + ((1/2 : ℝ)^(12:ℕ) - 1) = (1/2 : ℝ)^(12:ℕ) by ring,
      ← Real.rpow_natCast (1/2 : ℝ) 12,
      ← Real.rpow_mul (by norm_num : (0:ℝ) ≤ 1/2)]
    norm_num
  · norm_num [simular_investimento_detalhado, dadosMensais, aporte_do_mes,
      locSaldoBruto, calcular_ir_regressivo]

/-- Claim C3, amended: `netBalance ≤ grossBalance` holds whenever the run is not
taxable or the gross yield is non-negative; the tax line 162 multiplies a
negative yield by a positive rate, so a taxable run with negative yield
gets a negative tax and `netBalance > grossBalance`. -/
theorem net_balance_le_gross_unless_taxed_negative_yield
    (vi : ℚ) (tipo : String) (b v : ℚ) (cust : ℕ → ℚ) (t vt : ℚ) (meses : ℤ)
    (ir : Bool) (r : ResultadoSimulacao)
    (hok : simular_investimento_detalhado vi tipo b v cust t vt meses ir = .ok r)
    (hyp : ir = false ∨ 0 ≤ r.saldo_bruto - r.capital_investido) :
    r.saldo_liquido ≤ r.saldo_bruto := by
  simp only [simular_investimento_detalhado] at hok
  split at hok
  · exact Except.noConfusion hok
  · rename_i sb hloc
    simp only [Except.ok.injEq] at hok
    subst hok
    simp only at hyp ⊢
    have hge : 0 ≤ (if ir then
        calcular_ir_regressivo meses
          (sb - (vi + (List.map (·.aporte) (dadosMensais tipo b v cust vt
            meses.toNat 1 vi vi t)).sum)) else 0) := by
      rcases hyp with hf | hy
      · subst hf; simp
      · split
        · exact mul_nonneg hy (by split_ifs <;> norm_num)
        · exact le_refl 0
    linarith

/-- Witness for the amended C3, at a non-taxable one-month run. -/
theorem net_balance_le_gross_unless_taxed_negative_yield_witness :
    simular_investimento_detalhado 0 "Fixo" 0 0 (fun _ => 0) 0 0 1 false =
      .ok ⟨0, 0, 0, [⟨1, 0, 0, 0, 0⟩], 0⟩ ∧
    ((false = false) ∨
      0 ≤ (⟨0, 0, 0, [⟨1, 0, 0, 0, 0⟩], 0⟩ : ResultadoSimulacao).saldo_bruto -
        (⟨0, 0, 0, [⟨1, 0, 0, 0, 0⟩], 0⟩ : ResultadoSimulacao).capital_investido) ∧
    (⟨0, 0, 0, [⟨1, 0, 0, 0, 0⟩], 0⟩ : ResultadoSimulacao).saldo_liquido ≤
      (⟨0, 0, 0, [⟨1, 0, 0, 0, 0⟩], 0⟩ : ResultadoSimulacao).saldo_bruto := by
  have hok : simular_investimento_detalhado 0 "Fixo" 0 0 (fun _ => 0) 0 0 1 false =
      .ok ⟨0, 0, 0, [⟨1, 0, 0, 0, 0⟩], 0⟩ := by
    norm_num [simular_investimento_detalhado, dadosMensais, aporte_do_mes, locSaldoBruto]
  exact ⟨hok, Or.inl rfl,
    net_balance_le_gross_unless_taxed_negative_yield 0 "Fixo" 0 0 (fun _ => 0)
      0 0 1 false _ hok (Or.inl rfl)⟩

/-- The Price loop always produces one row per month of the term,
whichever branches are taken. -/
lemma priceLoop_length (t pf e : ℚ) (xs : List ℕ) :
    ∀ (k mes : ℕ) (saldo : ℚ), ((priceLoop t pf e xs k mes saldo).1).length = k := by
  intro k
  induction k with
  | zero => intro mes saldo; simp [priceLoop]
  | succ n ih =>
    intro mes saldo
    by_cases h : saldo ≤ 0 <;> simp [priceLoop, h, ih]

/-- Claim C7: with `monthlyRate = 0` the annuity denominator `(1+0)^n - 1`
vanishes, the `ZeroDivisionError` handler of lines 229-232 kicks in with
`basePayment = 0`, and the engine still returns a defined schedule of the
full `termMonths` length for any extra-prepayment configuration. -/
theorem price_zero_rate_returns_defined_result (p : ℚ) (n : ℕ) (e : ℚ)
    (xs : List ℕ) (hp : 0 < p) (hn : 0 < n) :
    parcelaFixaPrice p 0 n = 0 ∧ ((calcular_price p 0 n e xs).1).length = n := by
  constructor
  · simp [parcelaFixaPrice]
  · simpa [calcular_price] using
      priceLoop_length 0 (parcelaFixaPrice p 0 n) e xs n 1 p

/-- Witness for C7 at `principal = 100`, `termMonths = 3`, extra `7` in
month 2. -/
theorem price_zero_rate_returns_defined_result_witness :
    (0 : ℚ) < 100 ∧ (0 < 3) ∧ parcelaFixaPrice 100 0 3 = 0 ∧
    ((calcular_price 100 0 3 7 [2]).1).length = 3 :=
  ⟨by norm_num, by decide,
    (price_zero_rate_returns_defined_result 100 3 7 [2] (by norm_num) (by decide)).1,
    (price_zero_rate_returns_defined_result 100 3 7 [2] (by norm_num) (by decide)).2⟩

/-- With zero rate, zero base payment, and no effective extra prepayment,
the Price loop leaves the balance untouched and accumulates nothing. -/
lemma priceLoop_zero_rate_no_extra (p e : ℚ) (xs : List ℕ) (hp : 0 < p)
    (he : e = 0 ∨ xs = []) :
    ∀ (k mes : ℕ), priceLoop 0 0 e xs k mes p =
      ((List.range' mes k).map (fun m => ⟨m, 0, 0, 0, p⟩), 0, 0) := by
  intro k
  induction k with
  | zero => intro mes; simp [priceLoop]
  | succ n ih =>
    intro mes
    have hnp : ¬ (p ≤ 0) := not_le.mpr hp
    have hnl : ¬ (p < 0) := by linarith
    rcases he with he | he
    · subst he
      simp [priceLoop, hnp, hnl, ih, List.range'_succ]
    · subst he
      simp [priceLoop, hnp, hnl, ih, List.range'_succ]

/-- Claim C10: the Price amortization with `monthlyRate = 0` and no extra
prepayments (zero extra amount or empty extra-month list) produces exactly
`termMonths` rows, each `⟨m, 0, 0, 0, principal⟩`, with zero total
interest and zero total payment: the balance never decreases and the loan
is never paid off. -/
theorem price_zero_rate_no_extra_schedule (p : ℚ) (n : ℕ) (e : ℚ)
    (xs : List ℕ) (hp : 0 < p) (hn : 0 < n) (he : e = 0 ∨ xs = []) :
    calcular_price p 0 n e xs =
      ((List.range' 1 n).map (fun m => ⟨m, 0, 0, 0, p⟩), 0, 0) := by
  have hpf : parcelaFixaPrice p 0 n = 0 := by simp [parcelaFixaPrice]
  simp only [calcular_price, hpf]
  exact priceLoop_zero_rate_no_extra p e xs hp he n 1

/-- Witness for C10 at `principal = 100`, `termMonths = 2`, extra amount
`0` with a nonempty extra-month list. -/
theorem price_zero_rate_no_extra_schedule_witness :
    (0 : ℚ) < 100 ∧ (0 < 2) ∧ ((0 : ℚ) = 0 ∨ ([5] : List ℕ) = []) ∧
    calcular_price 100 0 2 0 [5] =
      ([⟨1, 0, 0, 0, 100⟩, ⟨2, 0, 0, 0, 100⟩], 0, 0) :=
  ⟨by norm_num, by decide, Or.inl rfl,
    (price_zero_rate_no_extra_schedule 100 2 0 [5] (by norm_num) (by decide)
      (Or.inl rfl)).trans (by norm_num [List.range'])⟩

/-- Under the fixed contribution policy with zero monthly rate and zero
drift, the row at index `k` of a `k+1`-month ledger carries gross balance
`s + c*(k+1)`. -/
lemma dadosMensais_fixo_zero_rate (c v : ℚ) (cust : ℕ → ℚ) :
    ∀ (k mes : ℕ) (s cap : ℚ),
      ((dadosMensais "Fixo" c v cust 0 (k+1) mes s cap 0)[k]?).map (·.saldoBruto) =
        some (s + c * (k+1)) := by
  intro k
  induction k with
  | zero =>
    intro mes s cap
    norm_num [dadosMensais, aporte_do_mes]
  | succ m ih =>
    intro mes s cap
    have step :
        dadosMensais "Fixo" c v cust 0 (m+1+1) mes s cap 0 =
          ⟨mes, c, s * 0, s + s * 0 + c, cap + c⟩ ::
            dadosMensais "Fixo" c v cust 0 (m+1) (mes+1) (s + s * 0 + c) (cap + c)
              (0 * (1 + 0)) := by
      simp [dadosMensais, aporte_do_mes]
    rw [step]
    simp only [List.getElem?_cons_succ, mul_zero, add_zero, zero_mul]
    rw [ih (mes+1) (s + c) (cap + c)]
    congr 1
    push_cast
    ring

/-- Claim C8: seeding a zero annual base rate gives a zero monthly rate, and a
run of the fixed contribution policy with zero monthly rate and zero drift
returns `grossBalance = initialAmount + contribution * horizonMonths`
exactly, for every horizon ≥ 1 (taxable or not). -/
theorem fixed_policy_zero_rate_gross_balance :
    taxa_mensal_de_anual 0 = 0 ∧
    ∀ (vi c v : ℚ) (cust : ℕ → ℚ) (n : ℤ) (ir : Bool), 0 ≤ vi → 1 ≤ n →
      saldoBrutoDe (simular_investimento_detalhado vi "Fixo" c v cust 0 0 n ir) =
        some (vi + c * (n : ℚ)) := by
  constructor
  · unfold taxa_mensal_de_anual
    norm_num
  · intro vi c v cust n ir hvi hn
    obtain ⟨m, hm⟩ : ∃ m, n.toNat = m + 1 := ⟨n.toNat - 1, by omega⟩
    have hlbl : (0 : ℤ) ≤ n - 1 := by omega
    have hidx : (n - 1).toNat = m := by omega
    have hcast : ((m + 1 : ℕ) : ℚ) = (n : ℚ) := by
      have : ((m + 1 : ℕ) : ℤ) = n := by omega
      exact_mod_cast congrArg (fun z : ℤ => (z : ℚ)) this
    simp only [simular_investimento_detalhado, locSaldoBruto, if_pos hlbl, hidx, hm]
    rw [dadosMensais_fixo_zero_rate c v cust m 1 vi vi]
    push_cast at hcast
    simp [saldoBrutoDe, hcast]

/-- Witness for C8: three initial, contribution five, two months. -/
theorem fixed_policy_zero_rate_gross_balance_witness :
    taxa_mensal_de_anual 0 = 0 ∧ (0 : ℚ) ≤ 3 ∧ (1 : ℤ) ≤ 2 ∧
    saldoBrutoDe (simular_investimento_detalhado 3 "Fixo" 5 0 (fun _ => 0) 0 0 2 false) =
      some 13 :=
  ⟨fixed_policy_zero_rate_gross_balance.1, by norm_num, by decide,
    (fixed_policy_zero_rate_gross_balance.2 3 5 0 (fun _ => 0) 2 false
      (by norm_num) (by decide)).trans (by norm_num)⟩

/-- An unrecognized contribution-policy tag selects the final `else` of
lines 118-129, which is the fixed contribution. -/
lemma aporte_do_mes_unknown (tipo : String)
    (h : tipo ∉ (["Fixo", "Variação Linear", "Variação Percentual",
      "Aportes Customizados"] : List String)) (b v : ℚ) (cust : ℕ → ℚ) (mes : ℕ) :
    aporte_do_mes tipo b v cust mes = b := by
  simp only [List.mem_cons, List.not_mem_nil, or_false, not_or] at h
  obtain ⟨h1, h2, h3, h4⟩ := h
  simp [aporte_do_mes, h1, h2, h3, h4]

/-- A ledger computed with an unrecognized policy tag coincides with the
ledger of the fixed policy, month by month. -/
lemma dadosMensais_unknown_eq_fixo (tipo : String)
    (h : tipo ∉ (["Fixo", "Variação Linear", "Variação Percentual",
      "Aportes Customizados"] : List String)) (b v : ℚ) (cust : ℕ → ℚ) (vt : ℚ) :
    ∀ (k mes : ℕ) (s cap t : ℚ),
      dadosMensais tipo b v cust vt k mes s cap t =
        dadosMensais "Fixo" b v cust vt k mes s cap t := by
  intro k
  induction k with
  | zero => intro mes s cap t; simp [dadosMensais]
  | succ m ih =>
    intro mes s cap t
    simp only [dadosMensais, aporte_do_mes_unknown tipo h b v cust mes]
    have hfixo : aporte_do_mes "Fixo" b v cust mes = b := by simp [aporte_do_mes]
    rw [hfixo, ih]

/-- Claim C9: a contribution-policy tag outside the four recognized variants is
silently treated as the fixed policy — the whole run (success or failure,
every field of the result) equals the run with the `"Fixo"` tag. -/
theorem unknown_contribution_policy_treated_as_fixed (tipo : String)
    (h : tipo ∉ (["Fixo", "Variação Linear", "Variação Percentual",
      "Aportes Customizados"] : List String))
    (vi b v : ℚ) (cust : ℕ → ℚ) (t vt : ℚ) (meses : ℤ) (ir : Bool) :
    simular_investimento_detalhado vi tipo b v cust t vt meses ir =
      simular_investimento_detalhado vi "Fixo" b v cust t vt meses ir := by
  unfold simular_investimento_detalhado
  rw [dadosMensais_unknown_eq_fixo tipo h b v cust vt]

/-- Witness for C9 with the tag `"Desconhecido"`. -/
theorem unknown_contribution_policy_treated_as_fixed_witness :
    ("Desconhecido" ∉ (["Fixo", "Variação Linear", "Variação Percentual",
      "Aportes Customizados"] : List String)) ∧
    simular_investimento_detalhado 1 "Desconhecido" 2 3 (fun _ => 4) (1/2) (1/4) 3 true =
      simular_investimento_detalhado 1 "Fixo" 2 3 (fun _ => 4) (1/2) (1/4) 3 true :=
  ⟨by decide,
    unknown_contribution_policy_treated_as_fixed "Desconhecido" (by decide)
      1 2 3 (fun _ => 4) (1/2) (1/4) 3 true⟩

/-- Coupled invariant of the Price loop and its active-month observer:
every row is stamped with a month at or after the starting month, the
active months all lie at or after the starting month, rows of active
months carry `parcela = parcela_fixa` while the others are zero-filled,
and `parcela_total` accumulates `parcela_fixa` plus the extra prepayment
exactly over the active months. -/
lemma priceLoop_parcela_structure (t pf e : ℚ) (xs : List ℕ) :
    ∀ (k mes : ℕ) (saldo : ℚ),
      (∀ rec ∈ (priceLoop t pf e xs k mes saldo).1, mes ≤ rec.mes) ∧
      (∀ m ∈ mesesAtivosPrice t pf e xs k mes saldo, mes ≤ m) ∧
      (∀ rec ∈ (priceLoop t pf e xs k mes saldo).1,
        if rec.mes ∈ mesesAtivosPrice t pf e xs k mes saldo
        then rec.parcela = pf
        else rec = ⟨rec.mes, 0, 0, 0, 0⟩) ∧
      (priceLoop t pf e xs k mes saldo).2.2 =
        ((mesesAtivosPrice t pf e xs k mes saldo).map
          (fun m => pf + if m ∈ xs then e else 0)).sum := by
  intro k
  induction k with
  | zero =>
    intro mes saldo
    simp [priceLoop, mesesAtivosPrice]
  | succ n ih =>
    intro mes saldo
    by_cases h : saldo ≤ 0
    · obtain ⟨ih1, ih2, ih3, ih4⟩ := ih (mes + 1) saldo
      have ep : priceLoop t pf e xs (n+1) mes saldo =
          (⟨mes, 0, 0, 0, 0⟩ :: (priceLoop t pf e xs n (mes+1) saldo).1,
            (priceLoop t pf e xs n (mes+1) saldo).2.1,
            (priceLoop t pf e xs n (mes+1) saldo).2.2) := by
        simp [priceLoop, h]
      have ea : mesesAtivosPrice t pf e xs (n+1) mes saldo =
          mesesAtivosPrice t pf e xs n (mes+1) saldo := by
        simp [mesesAtivosPrice, h]
      rw [ep, ea]
      refine ⟨?_, ?_, ?_, ih4⟩
      · intro rec hr
        rcases List.mem_cons.mp hr with hr | hr
        · subst hr; exact le_refl mes
        · exact le_trans (Nat.le_succ mes) (ih1 rec hr)
      · intro m hm
        exact le_trans (Nat.le_succ mes) (ih2 m hm)
      · intro rec hr
        rcases List.mem_cons.mp hr with hr | hr
        · subst hr
          rw [if_neg (fun hmem => by have := ih2 mes hmem; omega)]
        · exact ih3 rec hr
    · obtain ⟨ih1, ih2, ih3, ih4⟩ := ih (mes + 1)
        (if (if mes ∈ xs then saldo - e else saldo) - (pf - saldo * t) < 0 then 0
         else (if mes ∈ xs then saldo - e else saldo) - (pf - saldo * t))
      have ep : priceLoop t pf e xs (n+1) mes saldo =
          (⟨mes, saldo * t,
              if (if mes ∈ xs then saldo - e else saldo) - (pf - saldo * t) < 0
              then (saldo - (if mes ∈ xs then e else 0)) + saldo * t
              else pf - saldo * t,
              pf,
              if (if mes ∈ xs then saldo - e else saldo) - (pf - saldo * t) < 0 then 0
              else (if mes ∈ xs then saldo - e else saldo) - (pf - saldo * t)⟩ ::
            (priceLoop t pf e xs n (mes+1)
              (if (if mes ∈ xs then saldo - e else saldo) - (pf - saldo * t) < 0 then 0
               else (if mes ∈ xs then saldo - e else saldo) - (pf - saldo * t))).1,
            saldo * t + (priceLoop t pf e xs n (mes+1)
              (if (if mes ∈ xs then saldo - e else saldo) - (pf - saldo * t) < 0 then 0
               else (if mes ∈ xs then saldo - e else saldo) - (pf - saldo * t))).2.1,
            (pf + (if mes ∈ xs then e else 0)) + (priceLoop t pf e xs n (mes+1)
              (if (if mes ∈ xs then saldo - e else saldo) - (pf - saldo * t) < 0 then 0
               else (if mes ∈ xs then saldo - e else saldo) - (pf - saldo * t))).2.2) := by
        simp [priceLoop, h]
      have ea : mesesAtivosPrice t pf e xs (n+1) mes saldo =
          mes :: mesesAtivosPrice t pf e xs n (mes+1)
            (if (if mes ∈ xs then saldo - e else saldo) - (pf - saldo * t) < 0 then 0
             else (if mes ∈ xs then saldo - e else saldo) - (pf - saldo * t)) := by
        simp [mesesAtivosPrice, h]
      rw [ep, ea]
      refine ⟨?_, ?_, ?_, ?_⟩
      · intro rec hr
        rcases List.mem_cons.mp hr with hr | hr
        · subst hr; exact le_refl mes
        · exact le_trans (Nat.le_succ mes) (ih1 rec hr)
      · intro m hm
        rcases List.mem_cons.mp hm with hm | hm
        · omega
        · exact le_trans (Nat.le_succ mes) (ih2 m hm)
      · intro rec hr
        rcases List.mem_cons.mp hr with hr | hr
        · subst hr
          rw [if_pos (List.mem_cons_self _ _)]
        · have hne : rec.mes ≠ mes := by have := ih1 rec hr; omega
          simpa [List.mem_cons, hne] using ih3 rec hr
      · simp only [List.map_cons, List.sum_cons, ih4]

/-- Claim C5: in the Price schedule, every row that is not zero-filled (i.e.
whose month took the active branch of the loop) reports `parcela` equal to
the constant `parcela_fixa`, and the aggregate `parcela_total` accumulates
`parcela_fixa + extra` over active months that carry an extra prepayment
and `parcela_fixa` alone over the other active months — so the per-row
payment column and the aggregate deliberately diverge on extra-prepayment
months. -/
theorem price_payment_column_and_total_payment (p t e : ℚ) (n : ℕ) (xs : List ℕ) :
    ((calcular_price p t n e xs).1.Forall (fun rec =>
      if rec.mes ∈ mesesAtivosPrice t (parcelaFixaPrice p t n) e xs n 1 p
      then rec.parcela = parcelaFixaPrice p t n
      else rec = ⟨rec.mes, 0, 0, 0, 0⟩)) ∧
    (calcular_price p t n e xs).2.2 =
      ((mesesAtivosPrice t (parcelaFixaPrice p t n) e xs n 1 p).map
        (fun m => parcelaFixaPrice p t n + if m ∈ xs then e else 0)).sum := by
  obtain ⟨-, -, h3, h4⟩ :=
    priceLoop_parcela_structure t (parcelaFixaPrice p t n) e xs n 1 p
  exact ⟨List.forall_iff_forall_mem.mpr (by simpa [calcular_price] using h3),
    by simpa [calcular_price] using h4⟩
